import Mathlib

/-!
Verification development for the Jarvis2.0 repository.

The Python sources are shallowly embedded: pure control flow is translated
into Lean functions, mutable server state into explicit state passing, and
calls into third-party libraries (chromadb, torch models, OCR engines,
numpy summaries, iOS services) into oracle parameters that supply the outcome of
each such call.  Python floats are modelled as rationals, Python ints as
Nat or Int, fallible code as Except values.
-/

instance {ε α : Type} [DecidableEq ε] [DecidableEq α] : DecidableEq (Except ε α)
  | .ok a, .ok b => if h : a = b then .isTrue (by rw [h]) else .isFalse (by simp [h])
  | .ok _, .error _ => .isFalse (by simp)
  | .error _, .ok _ => .isFalse (by simp)
  | .error a, .error b => if h : a = b then .isTrue (by rw [h]) else .isFalse (by simp [h])

/-- Python exceptions, identified by kind and a modelled message. -/
inductive PyExc
  | indexError
  | typeError (msg : String)
  | valueError (msg : String)
  | attributeError (msg : String)
  | badRequest
deriving Repr, DecidableEq

/-- Model of the Python str(e) applied to an exception. -/
def PyExc.toStr : PyExc → String
  | .indexError => "index 2 is out of bounds"
  | .typeError m => m
  | .valueError m => m
  | .attributeError m => m
  | .badRequest => "400 Bad Request"

/-- Whether the first character list occurs at the head of the second. -/
def charsStartWith : List Char → List Char → Bool
  | [], _ => true
  | _ :: _, [] => false
  | a :: as, b :: bs => a == b && charsStartWith as bs

/-- Whether the first character list occurs somewhere inside the second. -/
def charsContain (needle : List Char) : List Char → Bool
  | [] => needle.isEmpty
  | c :: rest => charsStartWith needle (c :: rest) || charsContain needle rest

/-- Model of the Python substring test: needle in hay. -/
def substrOf (needle hay : String) : Bool :=
  charsContain needle.toList hay.toList

/-- Model of the Python str.lower(), mapping each character. -/
def lowerStr (s : String) : String :=
  String.mk (s.data.map Char.toLower)

/-- Model of the Python slice xs[-10:]. -/
def lastTen {α : Type} (l : List α) : List α :=
  l.drop (l.length - 10)

theorem lastTen_length_le {α : Type} (l : List α) : (lastTen l).length ≤ 10 := by
  simp [lastTen]
  omega

/-- A decoded PIL image, summarised by the attributes the repository reads:
its size, the number of colour channels of the numpy array obtained from it
(a grayscale image yields a 2-D array, modelled as channels < 3), and the
fraction of strongly blue pixels computed by the numpy mask in
process_frame_for_automation of ai_server.py. -/
structure PyImage where
  width : Nat
  height : Nat
  channels : Nat
  blueFrac : ℚ
deriving Repr, DecidableEq

instance : Inhabited PyImage := ⟨⟨0, 0, 0, 0⟩⟩

namespace Jarvis

/- ===== src/jarvis_core_system.py ===== -/

/-- The command.target dict: the keys the code reads, each possibly absent. -/
structure Target where
  element_id : Option String := none
  text : Option String := none
  description : Option String := none
  x : Option Int := none
  y : Option Int := none
deriving Repr, DecidableEq

/-- The AutomationCommand dataclass (jarvis_core_system.py lines 226-232). -/
structure AutomationCommand where
  action : String
  target : Target
  confidence : ℚ
  retry_count : Nat := 0
  max_retries : Nat := 3
deriving Repr, DecidableEq

structure Coords where
  x : Int := 0
  y : Int := 0
deriving Repr, DecidableEq

/-- An element handle returned by the iOS accessibility service. -/
structure AccElement where
  handle : String
deriving Repr, DecidableEq

/-- A cached ui_elements entry returned by PersonalRAG.get_element_location:
the stored coordinates and the optional success_rate key. -/
structure MemEntry where
  coordinates : Coords
  success_rate : Option ℚ := none
deriving Repr, DecidableEq

/-- The dict returned by AppSpecificLoRA.predict_with_app_model. -/
structure AIResult where
  coordinates : Coords
  confidence : ℚ
deriving Repr, DecidableEq

/-- The result dicts passed around by SelfHealingAutomation. -/
structure LayerResult where
  success : Bool
  method : String
  confidence : ℚ
  coordinates : Option Coords := none
deriving Repr, DecidableEq

/-- Oracle for the outside world seen by SelfHealingAutomation during one
execute_automation call on a fixed screenshot: the iOS accessibility
service, the RAG store lookup, the LoRA model, tap execution, the
action-verification pipeline and the user-teaching wait. -/
structure AutomationEnv where
  queryAccessibilityService : String → Option AccElement
  findElementsByText : String → List AccElement
  triggerAccessibilityElement : AccElement → Bool
  detectApp : String
  ragGetElementLocation : String → String → Option MemEntry
  executeTap : Coords → Bool
  loraPredict : String → String → AIResult
  verifyAction : AutomationCommand → Bool
  waitForUserAction : Option Coords

/-- self.confidence_threshold set in SelfHealingAutomation.__init__. -/
def confidenceThreshold : ℚ := 95/100

/-- SelfHealingAutomation._try_accessibility_api: query by element_id first,
fall through to the text search, otherwise fail. -/
def tryAccessibilityApi (env : AutomationEnv) (cmd : AutomationCommand) : LayerResult :=
  let byId : Option LayerResult :=
    match cmd.target.element_id with
    | some eid =>
      (env.queryAccessibilityService eid).map fun elem =>
        { success := env.triggerAccessibilityElement elem
          method := "accessibility_api"
          confidence := 99/100 }
    | none => none
  match byId with
  | some r => r
  | none =>
    match cmd.target.text with
    | some t =>
      match env.findElementsByText t with
      | [] => { success := false, method := "accessibility_api", confidence := 0 }
      | e :: _ =>
        { success := env.triggerAccessibilityElement e
          method := "accessibility_text_match"
          confidence := 95/100 }
    | none => { success := false, method := "accessibility_api", confidence := 0 }

/-- SelfHealingAutomation._try_visual_ai: consult the RAG memory for the
element location first; only when no cached location exists invoke the
LoRA model, and accept its answer only above the confidence threshold. -/
def tryVisualAI (env : AutomationEnv) (cmd : AutomationCommand) : LayerResult :=
  let app := env.detectApp
  let desc := cmd.target.description.getD ""
  match env.ragGetElementLocation app desc with
  | some mem =>
    { success := env.executeTap mem.coordinates
      method := "visual_ai_memory"
      confidence := mem.success_rate.getD (9/10)
      coordinates := some mem.coordinates }
  | none =>
    let ai := env.loraPredict app ("Find and tap: " ++ desc)
    if ai.confidence > confidenceThreshold then
      { success := env.executeTap ai.coordinates
        method := "visual_ai_lora"
        confidence := ai.confidence
        coordinates := some ai.coordinates }
    else
      { success := false, method := "visual_ai", confidence := ai.confidence }

/-- SelfHealingAutomation._request_user_teaching. -/
def requestUserTeaching (env : AutomationEnv) (_cmd : AutomationCommand) : LayerResult :=
  match env.waitForUserAction with
  | some c =>
    { success := true, method := "user_teaching", confidence := 1, coordinates := some c }
  | none => { success := false, method := "user_teaching", confidence := 0 }

/-- The adjustment dicts of _adjust_command: x/y offsets or a scale. -/
inductive Adjustment
  | move (dx dy : Int)
  | rescale (s : ℚ)
deriving Repr, DecidableEq

/-- The adjustments list of _adjust_command. -/
def adjustmentsList : List Adjustment :=
  [.move 10 0, .move (-10) 0, .move 0 10, .move 0 (-10), .rescale (9/10), .rescale (11/10)]

/-- Python int() applied to a rational: truncation toward zero. -/
def intTrunc (q : ℚ) : Int := q.num.tdiv q.den

/-- SelfHealingAutomation._apply_adjustment. -/
def applyAdjustment (t : Target) (a : Adjustment) : Target :=
  match a with
  | .move dx dy => { t with x := some (t.x.getD 0 + dx), y := some (t.y.getD 0 + dy) }
  | .rescale s =>
    { t with x := some (intTrunc ((t.x.getD 0 : ℚ) * s))
             y := some (intTrunc ((t.y.getD 0 : ℚ) * s)) }

/-- SelfHealingAutomation._adjust_command: pick the adjustment indexed by
min(retry_count, len-1), lower the confidence, keep the (already bumped)
retry_count, and leave max_retries at the dataclass default 3. -/
def adjustCommand (cmd : AutomationCommand) : AutomationCommand :=
  let a := adjustmentsList.getD (min cmd.retry_count (adjustmentsList.length - 1)) (.move 10 0)
  { action := cmd.action
    target := applyAdjustment cmd.target a
    confidence := cmd.confidence * (9/10)
    retry_count := cmd.retry_count }

/-- Tags recording which fallback layer was attempted, in order. -/
inductive LayerTag
  | accessibility
  | visualMemory
  | visualLora
  | retryCall
  | teaching
deriving Repr, DecidableEq

/-- Result of one execute_automation call: the returned dict, the ordered
list of layers attempted by this invocation (a nested retry is recorded as
the single tag retryCall), and the total number of recursive self-calls
made, nested ones included. -/
structure ExecOutcome where
  result : LayerResult
  trace : List LayerTag
  recCalls : Nat
deriving Repr

/-- The visual layer attempt tags: the cached memory is consulted first,
the LoRA model only when no cached location exists. -/
def visualTrace (env : AutomationEnv) (cmd : AutomationCommand) : List LayerTag :=
  if (env.ragGetElementLocation env.detectApp (cmd.target.description.getD "")).isNone then
    [LayerTag.visualMemory, LayerTag.visualLora]
  else
    [LayerTag.visualMemory]

/-- Layers 2 and 3 of execute_automation (everything before the retry
layer): the accessibility attempt guarded by confidence > 0.9, then the
visual attempt whose success must also pass _verify_action.  Returns the
early-return result, if any, together with the attempt trace so far. -/
def preRetry (env : AutomationEnv) (cmd : AutomationCommand) :
    Option LayerResult × List LayerTag :=
  if cmd.confidence > 9/10 then
    let r := tryAccessibilityApi env cmd
    if r.success then
      (some r, [LayerTag.accessibility])
    else
      let vis := tryVisualAI env cmd
      (if vis.success && env.verifyAction cmd then some vis else none,
        LayerTag.accessibility :: visualTrace env cmd)
  else
    let vis := tryVisualAI env cmd
    (if vis.success && env.verifyAction cmd then some vis else none, visualTrace env cmd)

/-- Termination measure for execute_automation: the adjusted command always
carries the default max_retries = 3, so the measure penalises a differing
max_retries once and then counts the remaining retries. -/
def execMeasure (cmd : AutomationCommand) : Nat :=
  cmd.max_retries - cmd.retry_count + (if cmd.max_retries = 3 then 0 else 4)

theorem execMeasure_lt (cmd : AutomationCommand) (h : cmd.retry_count < cmd.max_retries) :
    execMeasure (adjustCommand { cmd with retry_count := cmd.retry_count + 1 }) <
      execMeasure cmd := by
  simp only [execMeasure, adjustCommand]
  split_ifs <;> omega

/-- SelfHealingAutomation.execute_automation (jarvis_core_system.py lines
250-289): layers 2 and 3 via preRetry, then the retry layer guarded by
retry_count < max_retries (incrementing retry_count before adjusting and
recursing), then the user-teaching layer. -/
def executeAutomation (env : AutomationEnv) (cmd : AutomationCommand) : ExecOutcome :=
  match preRetry env cmd with
  | (some r, t) => { result := r, trace := t, recCalls := 0 }
  | (none, t) =>
    if hr : cmd.retry_count < cmd.max_retries then
      let sub := executeAutomation env (adjustCommand { cmd with retry_count := cmd.retry_count + 1 })
      if sub.result.success then
        { result := sub.result, trace := t ++ [LayerTag.retryCall], recCalls := 1 + sub.recCalls }
      else
        { result := requestUserTeaching env cmd
          trace := t ++ [LayerTag.retryCall, LayerTag.teaching]
          recCalls := 1 + sub.recCalls }
    else
      { result := requestUserTeaching env cmd
        trace := t ++ [LayerTag.teaching]
        recCalls := 0 }
termination_by execMeasure cmd
decreasing_by exact execMeasure_lt cmd hr

/- ===== ConfidenceScorer (jarvis_core_system.py lines 560-608) ===== -/

/-- The context dict passed to ConfidenceScorer.score_command: the keys the
scorer reads. -/
structure ScoreContext where
  app : Option String := none
  ai_confidence : Option ℚ := none
  learned_from_user : Bool := false
deriving Repr, DecidableEq

/-- The history key f-string of score_command and update_history.  A missing
app renders as the Python string None. -/
def historyKey (ctx : ScoreContext) (cmd : AutomationCommand) : String :=
  ctx.app.getD "None" ++ ":" ++ cmd.action ++ ":" ++ cmd.target.description.getD ""

/-- ConfidenceScorer.score_command.  self.history is a defaultdict whose
entries are created only by update_history appending, so a present key
always holds a nonempty list; the history is modelled as a map from key to
the list of success flags, the empty list standing for an absent key. -/
def score_command (hist : String → List Bool) (cmd : AutomationCommand)
    (ctx : ScoreContext) : ℚ :=
  let base : ℚ := 1/2
  let entries := hist (historyKey ctx cmd)
  let s1 : ℚ :=
    if entries ≠ [] then
      base * (3/10) + ((entries.countP id : ℚ) / (entries.length : ℚ)) * (7/10)
    else base
  let s2 : ℚ :=
    if cmd.target.element_id.isSome then s1 + 2/10
    else if cmd.target.text.isSome then s1 + 1/10
    else s1
  let s3 : ℚ :=
    match ctx.ai_confidence with
    | some ai => s2 * (7/10) + ai * (3/10)
    | none => s2
  let s4 : ℚ := if ctx.learned_from_user then 99/100 else s3
  min s4 1

end Jarvis

/- ===== Theorems for claims C1, C2, C9 ===== -/

namespace Jarvis

theorem executeAutomation_unfold (env : AutomationEnv) (cmd : AutomationCommand) :
    executeAutomation env cmd =
      match preRetry env cmd with
      | (some r, t) => { result := r, trace := t, recCalls := 0 }
      | (none, t) =>
        if cmd.retry_count < cmd.max_retries then
          let sub := executeAutomation env
            (adjustCommand { cmd with retry_count := cmd.retry_count + 1 })
          if sub.result.success then
            { result := sub.result, trace := t ++ [LayerTag.retryCall]
              recCalls := 1 + sub.recCalls }
          else
            { result := requestUserTeaching env cmd
              trace := t ++ [LayerTag.retryCall, LayerTag.teaching]
              recCalls := 1 + sub.recCalls }
        else
          { result := requestUserTeaching env cmd
            trace := t ++ [LayerTag.teaching]
            recCalls := 0 } := by
  rw [executeAutomation]
  rfl

theorem exec_recCalls_aux (env : AutomationEnv) :
    ∀ (n : Nat) (cmd : AutomationCommand), execMeasure cmd ≤ n →
      cmd.max_retries = 3 →
      (executeAutomation env cmd).recCalls ≤ cmd.max_retries - cmd.retry_count := by
  intro n
  induction n with
  | zero =>
    intro cmd hm h3
    rw [executeAutomation_unfold]
    rcases hpre : preRetry env cmd with ⟨o, t⟩
    cases o with
    | some r => simp
    | none =>
      have hnr : ¬ cmd.retry_count < cmd.max_retries := by
        simp [execMeasure, h3] at hm
        omega
      simp [hnr]
  | succ n ih =>
    intro cmd hm h3
    rw [executeAutomation_unfold]
    rcases hpre : preRetry env cmd with ⟨o, t⟩
    cases o with
    | some r => simp
    | none =>
      by_cases hr : cmd.retry_count < cmd.max_retries
      · have hadj3 : (adjustCommand { cmd with retry_count := cmd.retry_count + 1 }).max_retries = 3 := rfl
        have hadjr : (adjustCommand { cmd with retry_count := cmd.retry_count + 1 }).retry_count =
            cmd.retry_count + 1 := rfl
        have hmeas := execMeasure_lt cmd hr
        have hsub := ih (adjustCommand { cmd with retry_count := cmd.retry_count + 1 })
          (by omega) hadj3
        rw [hadj3, hadjr] at hsub
        by_cases hs : (executeAutomation env
            (adjustCommand { cmd with retry_count := cmd.retry_count + 1 })).result.success
        · simp [hr, hs]
          omega
        · simp [hr, hs]
          omega
      · simp [hr]

/-- C1: For every AutomationCommand and screenshot environment,
execute_automation terminates (it is a total Lean function by the
well-founded measure execMeasure), the retry layer recurses only while
retry_count < max_retries, incrementing retry_count before each recursive
call, and for a command with max_retries = 3 the total number of recursive
self-calls is at most 3 - retry_count, hence at most 3. -/
theorem c1_execute_automation_retry_bound (env : AutomationEnv)
    (cmd : AutomationCommand) (h3 : cmd.max_retries = 3) :
    (executeAutomation env cmd).recCalls ≤ 3 - cmd.retry_count ∧
      (executeAutomation env cmd).recCalls ≤ 3 := by
  have h := exec_recCalls_aux env (execMeasure cmd) cmd le_rfl h3
  rw [h3] at h
  exact ⟨h, le_trans h (Nat.sub_le _ _)⟩

/-- A concrete environment mirroring the stub helpers of the source: the
accessibility service finds nothing, the RAG store holds nothing, taps
report success, the LoRA stub answers with confidence 0.95, and the user
teaches the point (100, 200). -/
def envDefault : AutomationEnv where
  queryAccessibilityService := fun _ => none
  findElementsByText := fun _ => []
  triggerAccessibilityElement := fun _ => false
  detectApp := "instagram"
  ragGetElementLocation := fun _ _ => none
  executeTap := fun _ => true
  loraPredict := fun _ _ => { coordinates := { x := 100, y := 200 }, confidence := 95/100 }
  verifyAction := fun _ => false
  waitForUserAction := some { x := 100, y := 200 }

/-- The command built by JarvisCore._generate_command. -/
def cmdLikeButton : AutomationCommand :=
  { action := "tap"
    target := { description := some "like button", x := some 100, y := some 200 }
    confidence := 8/10 }

/-- Witness for C1 at a concrete command and environment. -/
theorem c1_witness :
    cmdLikeButton.max_retries = 3 ∧
      (executeAutomation envDefault cmdLikeButton).recCalls ≤ 3 - cmdLikeButton.retry_count ∧
      (executeAutomation envDefault cmdLikeButton).recCalls ≤ 3 :=
  ⟨rfl, c1_execute_automation_retry_bound envDefault cmdLikeButton rfl⟩

theorem exec_trace_split (env : AutomationEnv) (cmd : AutomationCommand) :
    ∃ s : List LayerTag,
      (executeAutomation env cmd).trace = (preRetry env cmd).2 ++ s ∧
        List.Sublist s [LayerTag.retryCall, LayerTag.teaching] := by
  rw [executeAutomation_unfold]
  rcases hpre : preRetry env cmd with ⟨o, t⟩
  cases o with
  | some r => exact ⟨[], by simp, by decide⟩
  | none =>
    by_cases hr : cmd.retry_count < cmd.max_retries
    · by_cases hs : (executeAutomation env
          (adjustCommand { cmd with retry_count := cmd.retry_count + 1 })).result.success
      · exact ⟨[LayerTag.retryCall], by simp [hr, hs], by decide⟩
      · exact ⟨[LayerTag.retryCall, LayerTag.teaching], by simp [hr, hs], by decide⟩
    · exact ⟨[LayerTag.teaching], by simp [hr], by decide⟩

theorem preRetry_trace_sublist (env : AutomationEnv) (cmd : AutomationCommand) :
    List.Sublist (preRetry env cmd).2
      [LayerTag.accessibility, LayerTag.visualMemory, LayerTag.visualLora] := by
  simp only [preRetry, visualTrace]
  split_ifs <;> simp

theorem preRetry_acc_mem (env : AutomationEnv) (cmd : AutomationCommand) :
    LayerTag.accessibility ∈ (preRetry env cmd).2 ↔ cmd.confidence > 9/10 := by
  simp only [preRetry, visualTrace]
  split_ifs with h1 h2 h3 <;> simp_all

theorem preRetry_lora_mem (env : AutomationEnv) (cmd : AutomationCommand) :
    LayerTag.visualLora ∈ (preRetry env cmd).2 →
      env.ragGetElementLocation env.detectApp (cmd.target.description.getD "") = none := by
  simp only [preRetry, visualTrace]
  split_ifs with h1 h2 h3 <;> intro hmem <;> simp_all

/-- C2: one invocation of execute_automation attempts its layers in the
order accessibility, cached vision memory, LoRA inference, retry, user
teaching (its attempt trace is a sublist of that canonical order); the
accessibility layer is attempted exactly when command.confidence > 0.9;
and the LoRA model is invoked only when the per-user memory store returned
no cached location for the element. -/
theorem c2_execute_automation_layer_order (env : AutomationEnv) (cmd : AutomationCommand) :
    List.Sublist (executeAutomation env cmd).trace
        [LayerTag.accessibility, LayerTag.visualMemory, LayerTag.visualLora,
          LayerTag.retryCall, LayerTag.teaching] ∧
      (LayerTag.accessibility ∈ (executeAutomation env cmd).trace ↔ cmd.confidence > 9/10) ∧
      (LayerTag.visualLora ∈ (executeAutomation env cmd).trace →
        env.ragGetElementLocation env.detectApp (cmd.target.description.getD "") = none) := by
  obtain ⟨s, hts, hsub⟩ := exec_trace_split env cmd
  have hpre := preRetry_trace_sublist env cmd
  refine ⟨?_, ?_, ?_⟩
  · rw [hts]
    have : [LayerTag.accessibility, LayerTag.visualMemory, LayerTag.visualLora,
        LayerTag.retryCall, LayerTag.teaching] =
        [LayerTag.accessibility, LayerTag.visualMemory, LayerTag.visualLora] ++
          [LayerTag.retryCall, LayerTag.teaching] := rfl
    rw [this]
    exact List.Sublist.append hpre hsub
  · rw [hts, List.mem_append]
    constructor
    · rintro (h | h)
      · exact (preRetry_acc_mem env cmd).mp h
      · have := hsub.subset h
        simp at this
    · intro h
      exact Or.inl ((preRetry_acc_mem env cmd).mpr h)
  · rw [hts, List.mem_append]
    rintro (h | h)
    · exact preRetry_lora_mem env cmd h
    · have := hsub.subset h
      simp at this

/-- Witness for C2 at a concrete command and environment. -/
theorem c2_witness :
    List.Sublist (executeAutomation envDefault cmdLikeButton).trace
      [LayerTag.accessibility, LayerTag.visualMemory, LayerTag.visualLora,
        LayerTag.retryCall, LayerTag.teaching] :=
  (c2_execute_automation_layer_order envDefault cmdLikeButton).1

/-- C9: ConfidenceScorer.score_command always returns at most 1.0 (the
final min with 1.0), and when the context marks the element as learned
from the user the returned score is exactly 0.99, whatever the history,
element clarity and model confidence say. -/
theorem c9_score_command_bounds (hist : String → List Bool)
    (cmd : AutomationCommand) (ctx : ScoreContext) :
    score_command hist cmd ctx ≤ 1 ∧
      (ctx.learned_from_user = true → score_command hist cmd ctx = 99/100) := by
  constructor
  · simp only [score_command]
    exact min_le_right _ _
  · intro h
    simp only [score_command, h, if_true]
    norm_num

/-- Witness for C9: the learned_from_user branch at concrete inputs. -/
theorem c9_witness :
    score_command (fun _ => []) cmdLikeButton { learned_from_user := true } ≤ 1 ∧
      score_command (fun _ => []) cmdLikeButton { learned_from_user := true } = 99/100 :=
  ⟨(c9_score_command_bounds (fun _ => []) cmdLikeButton { learned_from_user := true }).1,
    (c9_score_command_bounds (fun _ => []) cmdLikeButton { learned_from_user := true }).2 rfl⟩

end Jarvis

namespace AiServer

/- ===== src/Cloud-AI/ai_server.py ===== -/

/-- The command dicts built by process_frame_for_automation.  Coordinates
that the Python computes with integer division are cast to rationals; the
swipe y coordinates are Python floats. -/
inductive Command
  | wait (duration : ℚ) (reason : String)
  | tap (x y : ℚ) (reason : String)
  | swipe (startX startY endX endY duration : ℚ) (reason : String)
deriving Repr, DecidableEq

/-- process_frame_for_automation (ai_server.py lines 104-164).  Indexing
img_array[:, :, 2] raises IndexError when the decoded image has fewer than
three colour channels; otherwise the blue-pixel fraction and the frame
number heuristics append fixed commands in order.  The keyboard branch is
behind a literal if False and never runs. -/
def process_frame_for_automation (image : PyImage) (frame_number : Option Nat) :
    Except PyExc (List Command) :=
  if image.channels < 3 then
    .error .indexError
  else
    let c1 : List Command :=
      if image.blueFrac > 1/2 then
        [.wait 2 "Loading screen detected"]
      else []
    let fn := frame_number.getD 0
    let c2 : List Command :=
      if fn % 10 = 0 then
        c1 ++ [.tap ((image.width / 2 : ℕ) : ℚ) ((image.height / 2 : ℕ) : ℚ)
          "Center tap - periodic action"]
      else c1
    let c3 : List Command :=
      if fn % 30 = 0 then
        c2 ++ [.swipe ((image.width / 2 : ℕ) : ℚ) ((image.height : ℚ) * (7/10))
          ((image.width / 2 : ℕ) : ℚ) ((image.height : ℚ) * (3/10)) (1/2) "Scroll up"]
      else c2
    .ok c3

/-- The latest_frame slot: the decoded image and the request metadata. -/
structure FrameSlot where
  image : PyImage
  timestamp : String
  device_id : String
  frame_number : Nat
deriving Repr, DecidableEq

/-- The module-level mutable state of ai_server.py: the bounded
frame_queue created at import and never touched again, the latest_frame
slot guarded by frame_lock, and the stats counters. -/
structure State where
  frameQueue : List Unit := []
  latest_frame : Option FrameSlot := none
  frames_received : Nat := 0
  commands_sent : Nat := 0
  last_frame_time : Option String := none
deriving Repr, DecidableEq

def initState : State := {}

/-- One POST /frame request: whether the JSON body exists and carries an
image field, the outcome of base64-decoding and opening that image, the
optional metadata fields, and the datetime.now() of this request. -/
structure FrameRequest where
  hasImage : Bool
  decoded : Except PyExc PyImage
  timestamp : Option String := none
  device_id : Option String := none
  frame_number : Option Nat := none
  now : String := ""
deriving Repr, DecidableEq

/-- The JSON responses of receive_frame. -/
structure Response where
  status : Nat
  success : Bool := false
  frame_id : Option Nat := none
  commands : List Command := []
  errorMsg : Option String := none
deriving Repr, DecidableEq

/-- The body of receive_frame (the code inside the try).  State mutations
made before an exception persist; an early return carries a normal
response. -/
def receiveFrameBody (s : State) (r : FrameRequest) : State × Except PyExc Response :=
  if ¬ r.hasImage then
    (s, .ok { status := 400, errorMsg := some "No image data provided" })
  else
    match r.decoded with
    | .error e => (s, .error e)
    | .ok image =>
      let s1 := { s with frames_received := s.frames_received + 1
                         last_frame_time := some r.now }
      let slot : FrameSlot :=
        { image := image
          timestamp := r.timestamp.getD r.now
          device_id := r.device_id.getD "unknown"
          frame_number := r.frame_number.getD s1.frames_received }
      let s2 := { s1 with latest_frame := some slot }
      match process_frame_for_automation image r.frame_number with
      | .error e => (s2, .error e)
      | .ok cmds =>
        let s3 := if cmds = [] then s2
          else { s2 with commands_sent := s2.commands_sent + cmds.length }
        (s3, .ok { status := 200, success := true
                   frame_id := some s2.frames_received, commands := cmds })

/-- receive_frame (ai_server.py lines 50-102): the body wrapped in the
broad try/except that logs and returns 500 with the stringified error. -/
def receive_frame (s : State) (r : FrameRequest) : State × Response :=
  match receiveFrameBody s r with
  | (s2, .ok resp) => (s2, resp)
  | (s2, .error e) => (s2, { status := 500, errorMsg := some e.toStr })

/-- Whether a frame request is answered with status 200 (this depends only
on the request, never on the server state). -/
def frameReqAccepted (r : FrameRequest) : Bool :=
  r.hasImage &&
    match r.decoded with
    | .ok img =>
      match process_frame_for_automation img r.frame_number with
      | .ok _ => true
      | .error _ => false
    | .error _ => false

/-- The image a request decoded to (meaningful when decoding succeeded). -/
def FrameRequest.decodedImg (r : FrameRequest) : PyImage :=
  match r.decoded with
  | .ok i => i
  | .error _ => default

/-- A sequence of POST /frame requests applied in order. -/
def runFrames (s : State) (reqs : List FrameRequest) : State :=
  reqs.foldl (fun st r => (receive_frame st r).1) s

/-- The requests the server answers.  health_check, analyze_latest and
manual_command read state or print but write nothing, so they leave the
module state unchanged. -/
inductive Request
  | frame (r : FrameRequest)
  | health
  | analyzeLatest
  | manualCommand
deriving Repr, DecidableEq

def step (s : State) (q : Request) : State :=
  match q with
  | .frame r => (receive_frame s r).1
  | _ => s

def run (s : State) (reqs : List Request) : State :=
  reqs.foldl step s

end AiServer

namespace LocalServer

/- ===== src/Cloud-AI/ai_server_local.py ===== -/

/-- The module-level availability flags set by the import guards. -/
structure LocalFlags where
  ocr_available : Bool
  easyocr_available : Bool
  transformers_available : Bool
  cv2_available : Bool
deriving Repr, DecidableEq

/-- The dict returned by detect_ui_elements (coordinates meaningful only
when the corresponding flag is set, exactly as the code only reads them
then). -/
structure UIElemInfo where
  has_button : Bool := false
  button_x : Int := 0
  button_y : Int := 0
  has_text_field : Bool := false
  field_x : Int := 0
  field_y : Int := 0
deriving Repr, DecidableEq

/-- The dict returned by analyze_colors. -/
structure ColorInfo where
  is_mostly_white : Bool := false
  has_red_button : Bool := false
  red_button_x : Int := 0
  red_button_y : Int := 0
deriving Repr, DecidableEq

/-- The dict returned by detect_patterns.  detect_patterns only reports
is_grid_view when it found more than four rectangles, so a grid view
always comes with a nonempty grid_items list. -/
structure PatternInfo where
  is_list_view : Bool := false
  is_grid_view : Bool := false
  grid_items : List (Int × Int) := []
deriving Repr, DecidableEq

/-- Oracle for the per-frame results of the library analyses performed by
analyze_screen_with_ai: the OCR text (empty when extraction failed), the
computer-vision summaries, and the top label and score of the vision
classifier (none when the classifier is absent, returned nothing, or
raised inside its guarded try). -/
structure LocalVision where
  ocrText : String := ""
  ui : UIElemInfo := {}
  colors : ColorInfo := {}
  patterns : PatternInfo := {}
  classifierTop : Option (String × ℚ) := none
deriving Repr, DecidableEq

/-- The command dicts of ai_server_local.py.  The keyboard command
interpolates the classifier confidence into its reason string; that
formatted percentage is kept as the raw rational. -/
inductive LocalCommand
  | tap (x y : ℚ) (reason : String)
  | wait (duration : ℚ) (reason : String)
  | swipe (startX startY endX endY duration : ℚ) (reason : String)
  | typeKeyboard (text : String) (confidence : ℚ)
deriving Repr, DecidableEq

/-- Section 1 of analyze_screen_with_ai: OCR keyword decisions. -/
def ocrCommands (flags : LocalFlags) (v : LocalVision) (image : PyImage) : List LocalCommand :=
  if flags.ocr_available || flags.easyocr_available then
    if v.ocrText ≠ "" then
      (if substrOf "Sign in" v.ocrText || substrOf "Login" v.ocrText then
        [.tap ((image.width / 2 : ℕ) : ℚ) ((image.height / 2 : ℕ) : ℚ)
          "Login screen detected"]
      else []) ++
      (if substrOf "Accept" v.ocrText || substrOf "Allow" v.ocrText then
        [.tap ((image.width / 2 : ℕ) : ℚ) ((image.height : ℚ) * (7/10))
          "Accept/Allow button detected"]
      else []) ++
      (if substrOf "Next" v.ocrText || substrOf "Continue" v.ocrText then
        [.tap ((image.width : ℚ) * (8/10)) ((image.height : ℚ) * (9/10))
          "Next/Continue button detected"]
      else [])
    else []
  else []

/-- Section 2 of analyze_screen_with_ai: computer-vision ui elements. -/
def uiCommands (v : LocalVision) : List LocalCommand :=
  (if v.ui.has_button then
    [.tap (v.ui.button_x : ℚ) (v.ui.button_y : ℚ) "Button detected via CV"]
  else []) ++
  (if v.ui.has_text_field then
    [.tap (v.ui.field_x : ℚ) (v.ui.field_y : ℚ) "Text field detected"]
  else [])

/-- Section 3 of analyze_screen_with_ai: vision classifier keyboard check. -/
def classifierCommands (flags : LocalFlags) (v : LocalVision) : List LocalCommand :=
  if flags.transformers_available then
    match v.classifierTop with
    | some (label, conf) =>
      if substrOf "keyboard" (lowerStr label) then
        [.typeKeyboard "Automated input" conf]
      else []
    | none => []
  else []

/-- Section 4 of analyze_screen_with_ai: colour-based decisions. -/
def colorCommands (v : LocalVision) : List LocalCommand :=
  (if v.colors.is_mostly_white then
    [.wait 2 "White/loading screen detected"]
  else []) ++
  (if v.colors.has_red_button then
    [.tap (v.colors.red_button_x : ℚ) (v.colors.red_button_y : ℚ)
      "Red action button detected"]
  else [])

/-- Section 5 of analyze_screen_with_ai: list and grid patterns.  With an
empty grid_items list the Python modulo would raise, but detect_patterns
never reports a grid view with an empty list. -/
def patternCommands (v : LocalVision) (image : PyImage) (frameNum : Nat) : List LocalCommand :=
  (if v.patterns.is_list_view then
    if frameNum % 20 = 0 then
      [.swipe ((image.width / 2 : ℕ) : ℚ) ((image.height : ℚ) * (7/10))
        ((image.width / 2 : ℕ) : ℚ) ((image.height : ℚ) * (3/10)) (1/2)
        "List view - scrolling for more content"]
    else []
  else []) ++
  (if v.patterns.is_grid_view then
    match v.patterns.grid_items with
    | [] => []
    | g :: gs =>
      let item := (g :: gs).getD (frameNum % (g :: gs).length) g
      [.tap (item.1 : ℚ) (item.2 : ℚ) "Exploring grid item"]
  else [])

/-- analyze_screen_with_ai (ai_server_local.py lines 157-290): the five
sections append their commands in order. -/
def analyze_screen_with_ai (flags : LocalFlags) (v : LocalVision) (image : PyImage)
    (frameNum : Nat) : List LocalCommand :=
  ocrCommands flags v image ++ uiCommands v ++ classifierCommands flags v ++
    colorCommands v ++ patternCommands v image frameNum

/-- The module-level mutable state of ai_server_local.py. -/
structure LocalState where
  latest_frame : Option AiServer.FrameSlot := none
  frames_received : Nat := 0
  commands_sent : Nat := 0
  last_frame_time : Option String := none
deriving Repr, DecidableEq

def initLocalState : LocalState := {}

/-- One POST /frame request to ai_server_local.py, with the oracle for the
library analyses on its frame. -/
structure LocalRequest where
  hasImage : Bool
  decoded : Except PyExc PyImage
  vision : LocalVision := {}
  timestamp : Option String := none
  device_id : Option String := none
  frame_number : Option Nat := none
  now : String := ""
deriving Repr, DecidableEq

structure LocalResponse where
  status : Nat
  success : Bool := false
  frame_id : Option Nat := none
  commands : List LocalCommand := []
  errorMsg : Option String := none
deriving Repr, DecidableEq

/-- The body of receive_frame of ai_server_local.py (lines 112-155). -/
def receiveLocalBody (flags : LocalFlags) (s : LocalState) (r : LocalRequest) :
    LocalState × Except PyExc LocalResponse :=
  if ¬ r.hasImage then
    (s, .ok { status := 400, errorMsg := some "No image data provided" })
  else
    match r.decoded with
    | .error e => (s, .error e)
    | .ok image =>
      let s1 := { s with frames_received := s.frames_received + 1
                         last_frame_time := some r.now }
      let slot : AiServer.FrameSlot :=
        { image := image
          timestamp := r.timestamp.getD r.now
          device_id := r.device_id.getD "unknown"
          frame_number := r.frame_number.getD s1.frames_received }
      let s2 := { s1 with latest_frame := some slot }
      let cmds := analyze_screen_with_ai flags r.vision image (r.frame_number.getD 0)
      let s3 := if cmds = [] then s2
        else { s2 with commands_sent := s2.commands_sent + cmds.length }
      (s3, .ok { status := 200, success := true
                 frame_id := some s2.frames_received, commands := cmds })

/-- receive_frame of ai_server_local.py: the body in its try/except. -/
def receive_frame_local (flags : LocalFlags) (s : LocalState) (r : LocalRequest) :
    LocalState × LocalResponse :=
  match receiveLocalBody flags s r with
  | (s2, .ok resp) => (s2, resp)
  | (s2, .error e) => (s2, { status := 500, errorMsg := some e.toStr })

/-- Whether a request to the local server is answered with status 200. -/
def localReqAccepted (r : LocalRequest) : Bool :=
  r.hasImage &&
    match r.decoded with
    | .ok _ => true
    | .error _ => false

def LocalRequest.decodedImg (r : LocalRequest) : PyImage :=
  match r.decoded with
  | .ok i => i
  | .error _ => default

def runFramesLocal (flags : LocalFlags) (s : LocalState) (reqs : List LocalRequest) :
    LocalState :=
  reqs.foldl (fun st r => (receive_frame_local flags st r).1) s

end LocalServer

namespace Vision2025

/- ===== src/Cloud-AI/ai_vision_server_2025.py ===== -/

/-- A command dict produced by VisionAI.analyze_screen, summarised by the
action key the server inspects. -/
structure Command2025 where
  action : String
deriving Repr, DecidableEq

/-- The dict returned by vision_ai.analyze_screen: the model never lets an
exception escape (its body is guarded), so one analysis is always a plain
record. -/
structure VisionAnalysis where
  understanding : String := ""
  model_used : String := ""
  commands : List Command2025 := []
deriving Repr, DecidableEq

/-- One user_sessions entry. -/
structure Session2025 where
  frames_received : Nat := 0
  last_frame : Option String := none
  context : List Command2025 := []
deriving Repr, DecidableEq

/-- The module-level mutable state: the user_sessions dict and the bounded
frame_queue created at import and never touched again (processing_thread
stays None and is never started). -/
structure State2025 where
  sessions : String → Option Session2025 := fun _ => none
  frameQueue : List Unit := []

def initState2025 : State2025 := {}

/-- One POST /frame request: decode oracle, metadata, and the analyses the
vision model would return for the initial prompt (analysisA) and for the
follow-up prompt issued when the previous context action was a tap
(analysisB). -/
structure Req2025 where
  hasImage : Bool
  decoded : Except PyExc PyImage
  device_id : Option String := none
  frame_number : Option Nat := none
  analysisA : VisionAnalysis := {}
  analysisB : VisionAnalysis := {}
  now : String := ""
deriving Repr

structure Resp2025 where
  status : Nat
  success : Bool := false
  frame_id : Option Nat := none
  understanding : String := ""
  commands : List Command2025 := []
  model_used : String := ""
  errorMsg : Option String := none
deriving Repr, DecidableEq

/-- The body of receive_frame (ai_vision_server_2025.py lines 376-440):
decode, get-or-create the session, bump its counters, analyse (re-analyse
when the last context action was a tap), store the first command of the
final analysis in the context sliced to its last 10 entries, and answer
with the full analysis. -/
def receiveBody2025 (s : State2025) (r : Req2025) : State2025 × Except PyExc Resp2025 :=
  if ¬ r.hasImage then
    (s, .ok { status := 400, errorMsg := some "No image data" })
  else
    match r.decoded with
    | .error e => (s, .error e)
    | .ok _image =>
      let key := r.device_id.getD "unknown"
      let old := (s.sessions key).getD {}
      let sess1 := { old with frames_received := old.frames_received + 1
                              last_frame := some r.now }
      let frameNum := r.frame_number.getD sess1.frames_received
      let analysis :=
        match sess1.context.getLast? with
        | some lastAction => if lastAction.action = "tap" then r.analysisB else r.analysisA
        | none => r.analysisA
      let ctx2 :=
        match analysis.commands with
        | [] => sess1.context
        | c :: _ => lastTen (sess1.context ++ [c])
      let sess2 := { sess1 with context := ctx2 }
      let s2 : State2025 :=
        { s with sessions := fun d => if d = key then some sess2 else s.sessions d }
      (s2, .ok { status := 200, success := true, frame_id := some frameNum
                 understanding := analysis.understanding
                 commands := analysis.commands
                 model_used := analysis.model_used })

/-- The analysis a frame request ends up with: the re-analysis (analysisB)
when the last action stored in the device context was a tap, otherwise
the initial analysis (analysisA). -/
def frameAnalysis (s : State2025) (r : Req2025) : VisionAnalysis :=
  let old := (s.sessions (r.device_id.getD "unknown")).getD {}
  match old.context.getLast? with
  | some lastAction => if lastAction.action = "tap" then r.analysisB else r.analysisA
  | none => r.analysisA

/-- receive_frame of ai_vision_server_2025.py: the body in its try/except. -/
def receive_frame_2025 (s : State2025) (r : Req2025) : State2025 × Resp2025 :=
  match receiveBody2025 s r with
  | (s2, .ok resp) => (s2, resp)
  | (s2, .error e) => (s2, { status := 500, errorMsg := some e.toStr })

/-- The requests the 2025 server answers; health_check, analyze_with_prompt
and get_sessions write no module state. -/
inductive Request2025
  | frame (r : Req2025)
  | health
  | analyzePrompt
  | sessionsInfo
deriving Repr

def step2025 (s : State2025) (q : Request2025) : State2025 :=
  match q with
  | .frame r => (receive_frame_2025 s r).1
  | _ => s

def run2025 (s : State2025) (reqs : List Request2025) : State2025 :=
  reqs.foldl step2025 s

end Vision2025

namespace QwenServer

/- ===== src/Cloud-AI/ai_server_qwen_ultimate.py ===== -/

/-- A command produced by the reasoning step, summarised by its action. -/
structure QCmd where
  action : String
deriving Repr, DecidableEq

/-- One interaction_history entry appended by analyze_screen. -/
structure HistEntry where
  screen : String
  action_taken : Option QCmd
deriving Repr, DecidableEq

/-- The oracle outcome of one QwenVisionSystem.analyze_screen call: either
an exception was raised inside the try (before the history update, since
the vision and reasoning model calls precede it and the append and slice
themselves cannot raise), or the vision description and the reasoned
commands. -/
structure QwenOutcome where
  failed : Bool := false
  description : String := ""
  commands : List QCmd := []
deriving Repr, DecidableEq

/-- The effect of one analyze_screen call on self.interaction_history
(ai_server_qwen_ultimate.py lines 186-192): append the screen description
and the first command, then keep only the last 10 entries; on an
exception the history is left unchanged. -/
def qwenHistoryStep (hist : List HistEntry) (o : QwenOutcome) : List HistEntry :=
  if o.failed then hist
  else lastTen (hist ++ [{ screen := o.description, action_taken := o.commands.head? }])

/-- interaction_history after a sequence of frames, starting from the
empty history set in QwenVisionSystem.__init__ (and by POST /reset). -/
def runQwenHistory (outs : List QwenOutcome) : List HistEntry :=
  outs.foldl qwenHistoryStep []

end QwenServer

namespace ExampleServer

/- ===== src/iOS-App/MirrorApp/ai_server_example.py ===== -/

/-- The command dicts of make_decision. -/
inductive ExCommand
  | tap (x y : Int)
  | home
  | swipe (direction : String) (distance : Nat)
deriving Repr, DecidableEq

/-- A button centre found by the contour heuristic of analyze_screen. -/
structure ExButton where
  x : Int
  y : Int
deriving Repr, DecidableEq

/-- The structured screen analysis built by analyze_screen: the OCR text
lines and detected buttons (library results, supplied as oracle input) and
the app detected from the joined lowercased text. -/
structure ExAnalysis where
  textLines : List String
  buttons : List ExButton
  app : String
deriving Repr, DecidableEq

/-- The app-detection keyword match at the end of analyze_screen. -/
def detectAppFromText (lines : List String) : String :=
  let joined := lowerStr (String.intercalate " " lines)
  if substrOf "messages" joined then "iMessage"
  else if substrOf "uber" joined then "Uber"
  else if substrOf "tiktok" joined || substrOf "for you" joined then "TikTok"
  else "Unknown"

/-- analyze_screen (ai_server_example.py lines 141-195) with the OCR and
contour results supplied by the oracle. -/
def analyzeScreen (lines : List String) (buttons : List ExButton) : ExAnalysis :=
  { textLines := lines, buttons := buttons, app := detectAppFromText lines }

/-- make_decision (ai_server_example.py lines 200-259).  In the Uber
branch the inner button loop breaks after the first button, so each
matching text line taps the first button; the TikTok branch throttles on
the last_tiktok_scroll context entry.  Returns the commands and the new
value of that context entry. -/
def make_decision (a : ExAnalysis) (lastTiktokScroll : Option ℚ) (now : ℚ) :
    List ExCommand × Option ℚ :=
  if a.app = "Uber" then
    match a.buttons with
    | [] => ([], lastTiktokScroll)
    | b :: _ =>
      ((a.textLines.filter (fun t => substrOf "confirm" (lowerStr t))).map
        (fun _ => ExCommand.tap b.x b.y), lastTiktokScroll)
  else if a.app = "iMessage" then
    if a.textLines.any (fun t => substrOf "delivered" (lowerStr t)) then
      ([ExCommand.home], lastTiktokScroll)
    else ([], lastTiktokScroll)
  else if a.app = "TikTok" then
    if now - lastTiktokScroll.getD 0 > 5 then
      ([ExCommand.swipe "up" 500], some now)
    else ([], lastTiktokScroll)
  else ([], lastTiktokScroll)

/-- One sessions entry (the context sub-dict is flattened into the
last_tiktok_scroll field, the only key make_decision uses). -/
structure ExSession where
  frames_received : Nat := 0
  last_frame : Option PyImage := none
  commands_queue : List ExCommand := []
  session_id : Option String := none
  last_timestamp : Option ℚ := none
  last_tiktok_scroll : Option ℚ := none
deriving Repr, DecidableEq

structure ExState where
  sessions : String → Option ExSession := fun _ => none

def initExState : ExState := {}

/-- One POST /broadcast-frame request.  jsonError models request.json
raising, or data being None so that data.get raises; frame none models a
missing frame field, on which b64decode(None) raises TypeError. -/
structure ExRequest where
  jsonError : Option PyExc := none
  frame : Option String := none
  decoded : Except PyExc PyImage := .error (.valueError "invalid base64")
  frame_number : Nat := 0
  timestamp : ℚ := 0
  device_id : Option String := none
  textLines : List String := []
  buttons : List ExButton := []
  nowTime : ℚ := 0
deriving Repr

/-- The /broadcast-frame response: it reports only a count of queued
commands, not the commands themselves. -/
structure ExResponse where
  status : Nat
  success : Bool := false
  frame_number : Nat := 0
  commands_queued : Nat := 0
  errorMsg : Option String := none
deriving Repr, DecidableEq

/-- The body of receive_frame (ai_server_example.py lines 34-101): parse,
decode, get-or-create the session, bump its counters, analyse and decide,
then extend the per-device commands_queue with the generated commands. -/
def receiveExBody (s : ExState) (r : ExRequest) : ExState × Except PyExc ExResponse :=
  match r.jsonError with
  | some e => (s, .error e)
  | none =>
    match r.frame with
    | none => (s, .error (.typeError "argument should be a bytes-like object or ASCII string, not NoneType"))
    | some _b64 =>
      match r.decoded with
      | .error e => (s, .error e)
      | .ok img =>
        let key := r.device_id.getD "unknown"
        let old := (s.sessions key).getD {}
        let sess1 := { old with frames_received := old.frames_received + 1
                                last_frame := some img
                                last_timestamp := some r.timestamp }
        let analysis := analyzeScreen r.textLines r.buttons
        let dec := make_decision analysis sess1.last_tiktok_scroll r.nowTime
        let sess2 := { sess1 with commands_queue := sess1.commands_queue ++ dec.1
                                  last_tiktok_scroll := dec.2 }
        let s2 : ExState :=
          { sessions := fun d => if d = key then some sess2 else s.sessions d }
        (s2, .ok { status := 200, success := true, frame_number := r.frame_number
                   commands_queued := dec.1.length })

/-- receive_frame of ai_server_example.py: the body in its try/except. -/
def receive_frame_example (s : ExState) (r : ExRequest) : ExState × ExResponse :=
  match receiveExBody s r with
  | (s2, .ok resp) => (s2, resp)
  | (s2, .error e) => (s2, { status := 500, errorMsg := some e.toStr })

structure FeedbackData where
  success : Option Bool := none
  err : Option String := none
deriving Repr, DecidableEq

structure FeedbackResponse where
  acknowledged : Bool
deriving Repr, DecidableEq

/-- receive_feedback (ai_server_example.py lines 264-278).  The handler
has NO try/except: request.json parses the body (a JSON null body yields
None, modelled by the none case), and data.get on None raises an
AttributeError that propagates out of the handler, hence the Except-valued
result type. -/
def receive_feedback (body : Option FeedbackData) : Except PyExc FeedbackResponse :=
  match body with
  | none => .error (.attributeError "NoneType object has no attribute get")
  | some _d => .ok { acknowledged := true }

end ExampleServer

/- ===== Theorems for claims C3, C4, C10 ===== -/

/-- C3 counterexample: the claim quantifies over every HTTP request
handler, but receive_feedback in ai_server_example.py has no exception
guard at all.  POSTing a JSON null body makes request.json yield None, so
data.get raises an AttributeError that propagates out of the handler
instead of being caught, logged and turned into a 400/500 response whose
error field is the stringified exception. -/
theorem c3_counterexample :
    ExampleServer.receive_feedback none =
      Except.error (PyExc.attributeError "NoneType object has no attribute get") := rfl

/-- C3 amended: the frame-receiving handlers (receive_frame in
ai_server.py, ai_server_local.py, ai_vision_server_2025.py and
ai_server_example.py) do wrap their bodies in a single broad exception
guard that logs and returns a 500 response whose error field is the
stringified exception; but not every handler is guarded (receive_feedback
and get_commands in ai_server_example.py and manual_command in
ai_server.py have no guard), so from those an exception propagates. -/
theorem c3_amended_guarded_frame_handlers :
    (∀ (s s2 : AiServer.State) (r : AiServer.FrameRequest) (e : PyExc),
        AiServer.receiveFrameBody s r = (s2, .error e) →
        AiServer.receive_frame s r = (s2, { status := 500, errorMsg := some e.toStr })) ∧
    (∀ (flags : LocalServer.LocalFlags) (s s2 : LocalServer.LocalState)
        (r : LocalServer.LocalRequest) (e : PyExc),
        LocalServer.receiveLocalBody flags s r = (s2, .error e) →
        LocalServer.receive_frame_local flags s r =
          (s2, { status := 500, errorMsg := some e.toStr })) ∧
    (∀ (s s2 : Vision2025.State2025) (r : Vision2025.Req2025) (e : PyExc),
        Vision2025.receiveBody2025 s r = (s2, .error e) →
        Vision2025.receive_frame_2025 s r =
          (s2, { status := 500, errorMsg := some e.toStr })) ∧
    (∀ (s s2 : ExampleServer.ExState) (r : ExampleServer.ExRequest) (e : PyExc),
        ExampleServer.receiveExBody s r = (s2, .error e) →
        ExampleServer.receive_frame_example s r =
          (s2, { status := 500, errorMsg := some e.toStr })) := by
  refine ⟨?_, ?_, ?_, ?_⟩
  · intro s s2 r e h
    simp only [AiServer.receive_frame, h]
  · intro flags s s2 r e h
    simp only [LocalServer.receive_frame_local, h]
  · intro s s2 r e h
    simp only [Vision2025.receive_frame_2025, h]
  · intro s s2 r e h
    simp only [ExampleServer.receive_frame_example, h]

/-- A request whose base64 payload does not decode. -/
def badDecodeReq : AiServer.FrameRequest :=
  { hasImage := true, decoded := .error (.valueError "Invalid base64-encoded string") }

/-- Witness for the amended C3: the guard of receive_frame in ai_server.py
at a concrete failing request. -/
theorem c3_witness :
    AiServer.receive_frame AiServer.initState badDecodeReq =
      (AiServer.initState,
        { status := 500,
          errorMsg := some (PyExc.valueError "Invalid base64-encoded string").toStr }) :=
  c3_amended_guarded_frame_handlers.1 AiServer.initState AiServer.initState badDecodeReq
    (PyExc.valueError "Invalid base64-encoded string") rfl

/-- An iMessage frame for the example server: the OCR sees a delivered
message, so make_decision generates a home command. -/
def c4Req : ExampleServer.ExRequest :=
  { jsonError := none, frame := some "aGVsbG8=", decoded := .ok ⟨390, 844, 3, 0⟩
    frame_number := 5, timestamp := 1, device_id := some "dev1"
    textLines := ["Messages", "delivered"], buttons := [], nowTime := 10 }

/-- C4 counterexample: a successful POST of a frame to ai_server_example.py
generates one command, yet the response carries only the count
commands_queued = 1 (its JSON has no commands list at all) while the
generated command is retained in the process-wide sessions structure, in
the commands_queue of the posting device, after the request completes. -/
theorem c4_counterexample :
    (ExampleServer.receive_frame_example ExampleServer.initExState c4Req).2 =
      { status := 200, success := true, frame_number := 5, commands_queued := 1 } ∧
    ((ExampleServer.receive_frame_example ExampleServer.initExState c4Req).1.sessions
        "dev1").map (fun sess => sess.commands_queue) =
      some [ExampleServer.ExCommand.home] := by
  constructor <;> decide

/-- C4 amended: in ai_server.py every command generated for a successful
frame POST appears in that response and the module state retains none; in
ai_server_example.py the generated commands are instead appended to the
per-device commands_queue kept in process-wide session state and the frame
response reports only their count; in ai_vision_server_2025.py all
generated commands are returned but the first one is also retained in the
session context (sliced to the last 10 entries). -/
theorem c4_amended_command_flow :
    (∀ (s : AiServer.State) (r : AiServer.FrameRequest) (img : PyImage)
        (cmds : List AiServer.Command),
        r.hasImage = true → r.decoded = .ok img →
        AiServer.process_frame_for_automation img r.frame_number = .ok cmds →
        (AiServer.receive_frame s r).2.commands = cmds) ∧
    (∀ (s : ExampleServer.ExState) (r : ExampleServer.ExRequest) (b64 : String)
        (img : PyImage),
        r.jsonError = none → r.frame = some b64 → r.decoded = .ok img →
        (((ExampleServer.receive_frame_example s r).1.sessions
            (r.device_id.getD "unknown")).map (fun sess => sess.commands_queue) =
          some (((s.sessions (r.device_id.getD "unknown")).getD {}).commands_queue ++
            (ExampleServer.make_decision
              (ExampleServer.analyzeScreen r.textLines r.buttons)
              ((s.sessions (r.device_id.getD "unknown")).getD {}).last_tiktok_scroll
              r.nowTime).1) ∧
        (ExampleServer.receive_frame_example s r).2.commands_queued =
          (ExampleServer.make_decision
            (ExampleServer.analyzeScreen r.textLines r.buttons)
            ((s.sessions (r.device_id.getD "unknown")).getD {}).last_tiktok_scroll
            r.nowTime).1.length)) ∧
    (∀ (s : Vision2025.State2025) (r : Vision2025.Req2025) (img : PyImage),
        r.hasImage = true → r.decoded = .ok img →
        (Vision2025.receive_frame_2025 s r).2.commands =
          (Vision2025.frameAnalysis s r).commands ∧
        ((Vision2025.receive_frame_2025 s r).1.sessions
            (r.device_id.getD "unknown")).map (fun sess => sess.context) =
          some (match (Vision2025.frameAnalysis s r).commands with
            | [] => ((s.sessions (r.device_id.getD "unknown")).getD {}).context
            | c :: _ =>
              lastTen (((s.sessions (r.device_id.getD "unknown")).getD {}).context ++ [c]))) := by
  refine ⟨?_, ?_, ?_⟩
  · intro s r img cmds h1 h2 h3
    simp [AiServer.receive_frame, AiServer.receiveFrameBody, h1, h2, h3]
  · intro s r b64 img h1 h2 h3
    simp [ExampleServer.receive_frame_example, ExampleServer.receiveExBody, h1, h2, h3]
  · intro s r img h1 h2
    constructor
    · simp [Vision2025.receive_frame_2025, Vision2025.receiveBody2025,
        Vision2025.frameAnalysis, h1, h2]
    · simp [Vision2025.receive_frame_2025, Vision2025.receiveBody2025,
        Vision2025.frameAnalysis, h1, h2]

/-- Witness for the amended C4 at concrete requests. -/
theorem c4_witness :
    (AiServer.receive_frame AiServer.initState
      { hasImage := true, decoded := .ok ⟨390, 844, 3, 0⟩, frame_number := some 7 }).2.commands =
        [] ∧
    ((ExampleServer.receive_frame_example ExampleServer.initExState c4Req).1.sessions
        "dev1").map (fun sess => sess.commands_queue) =
      some ([] ++ [ExampleServer.ExCommand.home]) := by
  constructor
  · exact c4_amended_command_flow.1 AiServer.initState
      { hasImage := true, decoded := .ok ⟨390, 844, 3, 0⟩, frame_number := some 7 }
      ⟨390, 844, 3, 0⟩ [] rfl rfl
      (by norm_num [AiServer.process_frame_for_automation])
  · have h := (c4_amended_command_flow.2.1 ExampleServer.initExState c4Req "aGVsbG8="
      ⟨390, 844, 3, 0⟩ rfl rfl rfl).1
    simpa using h

/-- C10: in receive_frame of ai_server.py, when the base64 decode and the
image open succeed but process_frame_for_automation raises, the handler
answers 500 with the stringified error while the frames_received counter
has already been incremented and latest_frame has already been overwritten
with the frame of the failed request; the 400 branch for a missing image field
returns before any state is modified. -/
theorem c10_error_response_not_atomic (s : AiServer.State) (r : AiServer.FrameRequest) :
    (∀ (img : PyImage) (e : PyExc),
        r.hasImage = true → r.decoded = .ok img →
        AiServer.process_frame_for_automation img r.frame_number = .error e →
        (AiServer.receive_frame s r).2 = { status := 500, errorMsg := some e.toStr } ∧
        (AiServer.receive_frame s r).1.frames_received = s.frames_received + 1 ∧
        (AiServer.receive_frame s r).1.latest_frame = some
          { image := img
            timestamp := r.timestamp.getD r.now
            device_id := r.device_id.getD "unknown"
            frame_number := r.frame_number.getD (s.frames_received + 1) }) ∧
    (r.hasImage = false →
        AiServer.receive_frame s r =
          (s, { status := 400, errorMsg := some "No image data provided" })) := by
  constructor
  · intro img e h1 h2 h3
    refine ⟨?_, ?_, ?_⟩ <;>
      simp [AiServer.receive_frame, AiServer.receiveFrameBody, h1, h2, h3]
  · intro h
    simp [AiServer.receive_frame, AiServer.receiveFrameBody, h]

/-- A request whose image decodes to a grayscale frame: the 2-D numpy
array makes process_frame_for_automation raise IndexError. -/
def grayReq : AiServer.FrameRequest :=
  { hasImage := true, decoded := .ok ⟨390, 844, 1, 0⟩, frame_number := some 7
    device_id := some "dev1", timestamp := some "t1", now := "t2" }

/-- Witness for C10: the 500 branch at a concrete grayscale frame and the
400 branch at a concrete imageless request. -/
theorem c10_witness :
    ((AiServer.receive_frame AiServer.initState grayReq).2 =
        { status := 500, errorMsg := some PyExc.indexError.toStr } ∧
      (AiServer.receive_frame AiServer.initState grayReq).1.frames_received = 1 ∧
      (AiServer.receive_frame AiServer.initState grayReq).1.latest_frame = some
        { image := ⟨390, 844, 1, 0⟩, timestamp := "t1", device_id := "dev1"
          frame_number := 7 }) ∧
    AiServer.receive_frame AiServer.initState { hasImage := false, decoded := .error .badRequest } =
      (AiServer.initState, { status := 400, errorMsg := some "No image data provided" }) :=
  ⟨(c10_error_response_not_atomic AiServer.initState grayReq).1 ⟨390, 844, 1, 0⟩
      PyExc.indexError rfl rfl (by decide),
    (c10_error_response_not_atomic AiServer.initState
      { hasImage := false, decoded := .error .badRequest }).2 rfl⟩

/- ===== Theorems for claim C5 ===== -/

theorem qwenHistory_aux (outs : List QwenServer.QwenOutcome) :
    ∀ h : List QwenServer.HistEntry, h.length ≤ 10 →
      (outs.foldl QwenServer.qwenHistoryStep h).length ≤ 10 := by
  induction outs with
  | nil => intro h hh; simpa using hh
  | cons o os ih =>
    intro h hh
    simp only [List.foldl_cons]
    apply ih
    simp only [QwenServer.qwenHistoryStep]
    split
    · exact hh
    · exact lastTen_length_le _

/-- The invariant that every stored session context has at most 10
entries. -/
def ctxInv (s : Vision2025.State2025) : Prop :=
  ∀ dev sess, s.sessions dev = some sess → sess.context.length ≤ 10

theorem receiveBody2025_fst_inv (s : Vision2025.State2025) (r : Vision2025.Req2025)
    (hs : ctxInv s) : ctxInv (Vision2025.receiveBody2025 s r).1 := by
  by_cases hI : r.hasImage
  · rcases hd : r.decoded with e | img
    · simpa [Vision2025.receiveBody2025, hI, hd] using hs
    · intro dev sess hdev
      simp only [Vision2025.receiveBody2025, hI, not_true_eq_false, if_false, hd] at hdev
      by_cases hk : dev = r.device_id.getD "unknown"
      · rw [hk, if_pos rfl] at hdev
        simp only [Option.some.injEq] at hdev
        subst hdev
        dsimp only
        split
        · rcases ho : s.sessions (r.device_id.getD "unknown") with _ | o
          · simp [ho]
          · simpa [ho] using hs _ o ho
        · exact lastTen_length_le _
      · simp only [if_neg hk] at hdev
        exact hs dev sess hdev
  · simpa [Vision2025.receiveBody2025, hI] using hs

theorem receive_frame_2025_fst (s : Vision2025.State2025) (r : Vision2025.Req2025) :
    (Vision2025.receive_frame_2025 s r).1 = (Vision2025.receiveBody2025 s r).1 := by
  simp only [Vision2025.receive_frame_2025]
  rcases h : Vision2025.receiveBody2025 s r with ⟨s2, res⟩
  cases res <;> simp

theorem ctxInv_run (reqs : List Vision2025.Request2025) :
    ∀ s, ctxInv s → ctxInv (Vision2025.run2025 s reqs) := by
  induction reqs with
  | nil => intro s h; exact h
  | cons q qs ih =>
    intro s h
    apply ih
    cases q with
    | frame r =>
      simpa only [Vision2025.step2025, receive_frame_2025_fst] using
        receiveBody2025_fst_inv s r h
    | health => exact h
    | analyzePrompt => exact h
    | sessionsInfo => exact h

/-- C5: the rolling history of past commands is bounded by 10.  In
ai_server_qwen_ultimate.py every analyze_screen call that appends to
interaction_history immediately slices it to the last 10 entries, so from
the empty initial history its length never exceeds 10; in
ai_vision_server_2025.py every device session context stored after any
sequence of requests has at most 10 entries. -/
theorem c5_history_at_most_ten :
    (∀ outs : List QwenServer.QwenOutcome,
        (QwenServer.runQwenHistory outs).length ≤ 10) ∧
    (∀ (reqs : List Vision2025.Request2025) (dev : String)
        (sess : Vision2025.Session2025),
        (Vision2025.run2025 Vision2025.initState2025 reqs).sessions dev = some sess →
        sess.context.length ≤ 10) := by
  constructor
  · intro outs
    exact qwenHistory_aux outs [] (by simp)
  · intro reqs dev sess h
    refine ctxInv_run reqs Vision2025.initState2025 ?_ dev sess h
    intro d ss hss
    simp [Vision2025.initState2025] at hss

/-- A concrete frame request for the 2025 server whose analysis yields one
tap command. -/
def req2025A : Vision2025.Req2025 :=
  { hasImage := true, decoded := .ok ⟨390, 844, 3, 0⟩, device_id := some "d1"
    frame_number := some 1, analysisA := { commands := [⟨"tap"⟩] }, now := "n1" }

/-- Witness for C5: a concrete qwen history and a concrete 2025 session. -/
theorem c5_witness :
    (QwenServer.runQwenHistory
        [{ description := "feed", commands := [⟨"tap"⟩] }]).length ≤ 10 ∧
    ((Vision2025.run2025 Vision2025.initState2025
        [.frame req2025A]).sessions "d1" =
      some { frames_received := 1, last_frame := some "n1", context := [⟨"tap"⟩] } ∧
    (10:Nat) ≥ ([Vision2025.Command2025.mk "tap"]).length) :=
  ⟨c5_history_at_most_ten.1 [{ description := "feed", commands := [⟨"tap"⟩] }],
    by decide,
    c5_history_at_most_ten.2 [.frame req2025A] "d1"
      { frames_received := 1, last_frame := some "n1", context := [⟨"tap"⟩] } (by decide)⟩

/- ===== Theorems for claim C7 ===== -/

theorem aiBody_frameQueue (s : AiServer.State) (r : AiServer.FrameRequest) :
    (AiServer.receiveFrameBody s r).1.frameQueue = s.frameQueue := by
  by_cases hI : r.hasImage
  · rcases hd : r.decoded with e | img
    · simp [AiServer.receiveFrameBody, hI, hd]
    · rcases hp : AiServer.process_frame_for_automation img r.frame_number with e | cmds
      · simp [AiServer.receiveFrameBody, hI, hd, hp]
      · simp only [AiServer.receiveFrameBody, hI, not_true_eq_false, if_false, hd, hp]
        split <;> rfl
  · simp [AiServer.receiveFrameBody, hI]

theorem ai_receive_frame_fst (s : AiServer.State) (r : AiServer.FrameRequest) :
    (AiServer.receive_frame s r).1 = (AiServer.receiveFrameBody s r).1 := by
  simp only [AiServer.receive_frame]
  rcases h : AiServer.receiveFrameBody s r with ⟨s2, res⟩
  cases res <;> simp

theorem aiStep_frameQueue (s : AiServer.State) (q : AiServer.Request) :
    (AiServer.step s q).frameQueue = s.frameQueue := by
  cases q with
  | frame r => simp only [AiServer.step, ai_receive_frame_fst, aiBody_frameQueue]
  | health => rfl
  | analyzeLatest => rfl
  | manualCommand => rfl

theorem body2025_frameQueue (s : Vision2025.State2025) (r : Vision2025.Req2025) :
    (Vision2025.receiveBody2025 s r).1.frameQueue = s.frameQueue := by
  by_cases hI : r.hasImage
  · rcases hd : r.decoded with e | img
    · simp [Vision2025.receiveBody2025, hI, hd]
    · simp [Vision2025.receiveBody2025, hI, hd]
  · simp [Vision2025.receiveBody2025, hI]

theorem step2025_frameQueue (s : Vision2025.State2025) (q : Vision2025.Request2025) :
    (Vision2025.step2025 s q).frameQueue = s.frameQueue := by
  cases q with
  | frame r => simp only [Vision2025.step2025, receive_frame_2025_fst, body2025_frameQueue]
  | health => rfl
  | analyzePrompt => rfl
  | sessionsInfo => rfl

theorem ai_run_frameQueue (reqs : List AiServer.Request) :
    ∀ s : AiServer.State, (AiServer.run s reqs).frameQueue = s.frameQueue := by
  induction reqs with
  | nil => intro s; rfl
  | cons q qs ih =>
    intro s
    simp only [AiServer.run, List.foldl_cons]
    rw [show (qs.foldl AiServer.step (AiServer.step s q)) =
        AiServer.run (AiServer.step s q) qs from rfl, ih, aiStep_frameQueue]

theorem run2025_frameQueue (reqs : List Vision2025.Request2025) :
    ∀ s : Vision2025.State2025, (Vision2025.run2025 s reqs).frameQueue = s.frameQueue := by
  induction reqs with
  | nil => intro s; rfl
  | cons q qs ih =>
    intro s
    simp only [Vision2025.run2025, List.foldl_cons]
    rw [show (qs.foldl Vision2025.step2025 (Vision2025.step2025 s q)) =
        Vision2025.run2025 (Vision2025.step2025 s q) qs from rfl, ih, step2025_frameQueue]

/-- C7: the bounded frame_queue declared at module load (maxsize 100 in
ai_server.py, maxsize 1000 in ai_vision_server_2025.py) is never consumed
from, or produced to, by any request handler or any other operation: after
any sequence of requests to either server it is still in its initial empty
state. -/
theorem c7_frame_queue_untouched :
    (∀ reqs : List AiServer.Request,
        (AiServer.run AiServer.initState reqs).frameQueue = []) ∧
    (∀ reqs : List Vision2025.Request2025,
        (Vision2025.run2025 Vision2025.initState2025 reqs).frameQueue = []) := by
  constructor
  · intro reqs
    rw [ai_run_frameQueue reqs AiServer.initState]
    rfl
  · intro reqs
    rw [run2025_frameQueue reqs Vision2025.initState2025]
    rfl

/- ===== Theorems for claim C6 ===== -/

theorem ai_receive_frame_accepted (s : AiServer.State) (r : AiServer.FrameRequest)
    (h : AiServer.frameReqAccepted r = true) :
    (AiServer.receive_frame s r).1.frames_received = s.frames_received + 1 ∧
    (AiServer.receive_frame s r).1.latest_frame = some
      { image := r.decodedImg
        timestamp := r.timestamp.getD r.now
        device_id := r.device_id.getD "unknown"
        frame_number := r.frame_number.getD (s.frames_received + 1) } := by
  simp only [AiServer.frameReqAccepted, Bool.and_eq_true] at h
  obtain ⟨hI, h2⟩ := h
  rcases hd : r.decoded with e | img
  · rw [hd] at h2
    simp at h2
  · rcases hp : AiServer.process_frame_for_automation img r.frame_number with e | cmds
    · rw [hd] at h2
      simp only [hp] at h2
      simp at h2
    · rw [ai_receive_frame_fst]
      simp only [AiServer.receiveFrameBody, hI, not_true_eq_false, if_false, hd, hp]
      constructor
      · split <;> rfl
      · split <;> simp [AiServer.FrameRequest.decodedImg, hd]

theorem ai_runFrames_last (rs : List AiServer.FrameRequest) :
    ∀ (r : AiServer.FrameRequest) (s : AiServer.State),
      (∀ x ∈ r :: rs, AiServer.frameReqAccepted x = true) →
      (AiServer.runFrames s (r :: rs)).latest_frame = some
        { image := (rs.getLastD r).decodedImg
          timestamp := (rs.getLastD r).timestamp.getD (rs.getLastD r).now
          device_id := (rs.getLastD r).device_id.getD "unknown"
          frame_number := (rs.getLastD r).frame_number.getD
            (s.frames_received + rs.length + 1) } := by
  induction rs with
  | nil =>
    intro r s hall
    have h := ai_receive_frame_accepted s r (hall r (by simp))
    simpa [AiServer.runFrames] using h.2
  | cons r2 rs ih =>
    intro r s hall
    have hstep := ai_receive_frame_accepted s r (hall r (by simp))
    have hih := ih r2 ((AiServer.receive_frame s r).1)
      (fun x hx => hall x (by simp only [List.mem_cons] at hx ⊢; tauto))
    have hrun : AiServer.runFrames s (r :: r2 :: rs) =
        AiServer.runFrames ((AiServer.receive_frame s r).1) (r2 :: rs) := rfl
    rw [hrun, hih, hstep.1, List.getLastD_cons, List.length_cons]
    have harith : s.frames_received + 1 + rs.length = s.frames_received + (rs.length + 1) := by
      omega
    rw [harith]

theorem local_receive_frame_fst (flags : LocalServer.LocalFlags)
    (s : LocalServer.LocalState) (r : LocalServer.LocalRequest) :
    (LocalServer.receive_frame_local flags s r).1 =
      (LocalServer.receiveLocalBody flags s r).1 := by
  simp only [LocalServer.receive_frame_local]
  rcases h : LocalServer.receiveLocalBody flags s r with ⟨s2, res⟩
  cases res <;> simp

theorem local_receive_frame_accepted (flags : LocalServer.LocalFlags)
    (s : LocalServer.LocalState) (r : LocalServer.LocalRequest)
    (h : LocalServer.localReqAccepted r = true) :
    (LocalServer.receive_frame_local flags s r).1.frames_received = s.frames_received + 1 ∧
    (LocalServer.receive_frame_local flags s r).1.latest_frame = some
      { image := r.decodedImg
        timestamp := r.timestamp.getD r.now
        device_id := r.device_id.getD "unknown"
        frame_number := r.frame_number.getD (s.frames_received + 1) } := by
  simp only [LocalServer.localReqAccepted, Bool.and_eq_true] at h
  obtain ⟨hI, h2⟩ := h
  rcases hd : r.decoded with e | img
  · rw [hd] at h2
    simp at h2
  · rw [local_receive_frame_fst]
    simp only [LocalServer.receiveLocalBody, hI, not_true_eq_false, if_false, hd]
    constructor
    · split <;> rfl
    · split <;> simp [LocalServer.LocalRequest.decodedImg, hd]

theorem local_runFrames_last (flags : LocalServer.LocalFlags)
    (rs : List LocalServer.LocalRequest) :
    ∀ (r : LocalServer.LocalRequest) (s : LocalServer.LocalState),
      (∀ x ∈ r :: rs, LocalServer.localReqAccepted x = true) →
      (LocalServer.runFramesLocal flags s (r :: rs)).latest_frame = some
        { image := (rs.getLastD r).decodedImg
          timestamp := (rs.getLastD r).timestamp.getD (rs.getLastD r).now
          device_id := (rs.getLastD r).device_id.getD "unknown"
          frame_number := (rs.getLastD r).frame_number.getD
            (s.frames_received + rs.length + 1) } := by
  induction rs with
  | nil =>
    intro r s hall
    have h := local_receive_frame_accepted flags s r (hall r (by simp))
    simpa [LocalServer.runFramesLocal] using h.2
  | cons r2 rs ih =>
    intro r s hall
    have hstep := local_receive_frame_accepted flags s r (hall r (by simp))
    have hih := ih r2 ((LocalServer.receive_frame_local flags s r).1)
      (fun x hx => hall x (by simp only [List.mem_cons] at hx ⊢; tauto))
    have hrun : LocalServer.runFramesLocal flags s (r :: r2 :: rs) =
        LocalServer.runFramesLocal flags ((LocalServer.receive_frame_local flags s r).1)
          (r2 :: rs) := rfl
    rw [hrun, hih, hstep.1, List.getLastD_cons, List.length_cons]
    have harith : s.frames_received + 1 + rs.length = s.frames_received + (rs.length + 1) := by
      omega
    rw [harith]

/-- C6: in ai_server.py and ai_server_local.py, each successful POST /frame
overwrites the shared latest_frame slot (mutated under frame_lock,
modelled as an atomic sequential update) with exactly the decoded image
and metadata of that request, so after any nonempty sequence of successful
requests latest_frame holds precisely the data of the last one and no
earlier frame is retained. -/
theorem c6_latest_frame_last_write_wins :
    (∀ (s : AiServer.State) (reqs : List AiServer.FrameRequest) (hne : reqs ≠ []),
        (∀ x ∈ reqs, AiServer.frameReqAccepted x = true) →
        (AiServer.runFrames s reqs).latest_frame = some
          { image := (reqs.getLast hne).decodedImg
            timestamp := (reqs.getLast hne).timestamp.getD (reqs.getLast hne).now
            device_id := (reqs.getLast hne).device_id.getD "unknown"
            frame_number := (reqs.getLast hne).frame_number.getD
              (s.frames_received + reqs.length) }) ∧
    (∀ (flags : LocalServer.LocalFlags) (s : LocalServer.LocalState)
        (reqs : List LocalServer.LocalRequest) (hne : reqs ≠ []),
        (∀ x ∈ reqs, LocalServer.localReqAccepted x = true) →
        (LocalServer.runFramesLocal flags s reqs).latest_frame = some
          { image := (reqs.getLast hne).decodedImg
            timestamp := (reqs.getLast hne).timestamp.getD (reqs.getLast hne).now
            device_id := (reqs.getLast hne).device_id.getD "unknown"
            frame_number := (reqs.getLast hne).frame_number.getD
              (s.frames_received + reqs.length) }) := by
  constructor
  · intro s reqs hne hall
    match reqs, hne with
    | r :: rs, _ =>
      rw [List.getLast_eq_getLastD, List.length_cons]
      have := ai_runFrames_last rs r s hall
      rw [this]
      have harith : s.frames_received + rs.length + 1 =
          s.frames_received + (rs.length + 1) := by omega
      rw [harith]
  · intro flags s reqs hne hall
    match reqs, hne with
    | r :: rs, _ =>
      rw [List.getLast_eq_getLastD, List.length_cons]
      have := local_runFrames_last flags rs r s hall
      rw [this]
      have harith : s.frames_received + rs.length + 1 =
          s.frames_received + (rs.length + 1) := by omega
      rw [harith]

/-- Two concrete accepted requests for ai_server.py. -/
def c6Req1 : AiServer.FrameRequest :=
  { hasImage := true, decoded := .ok ⟨390, 844, 3, 0⟩, frame_number := some 7
    device_id := some "devA", timestamp := some "tA", now := "nA" }

def c6Req2 : AiServer.FrameRequest :=
  { hasImage := true, decoded := .ok ⟨414, 896, 3, 0⟩, frame_number := some 8
    device_id := some "devB", timestamp := some "tB", now := "nB" }

/-- Witness for C6: after two concrete successful frames the slot holds
the second one. -/
theorem c6_witness :
    (AiServer.runFrames AiServer.initState [c6Req1, c6Req2]).latest_frame = some
      { image := ([c6Req1, c6Req2].getLast (by simp)).decodedImg
        timestamp := ([c6Req1, c6Req2].getLast (by simp)).timestamp.getD
          ([c6Req1, c6Req2].getLast (by simp)).now
        device_id := ([c6Req1, c6Req2].getLast (by simp)).device_id.getD "unknown"
        frame_number := ([c6Req1, c6Req2].getLast (by simp)).frame_number.getD
          (AiServer.initState.frames_received + [c6Req1, c6Req2].length) } :=
  c6_latest_frame_last_write_wins.1 AiServer.initState [c6Req1, c6Req2] (by simp)
    (by
      intro x hx
      simp only [List.mem_cons, List.mem_singleton] at hx
      rcases hx with h | h | h
      · subst h
        norm_num [AiServer.frameReqAccepted, c6Req1, AiServer.process_frame_for_automation]
      · subst h
        norm_num [AiServer.frameReqAccepted, c6Req2, AiServer.process_frame_for_automation]
      · cases h)

/- ===== Theorems for claim C8 ===== -/

/-- C8: in ai_server_local.py, for every frame whose extracted OCR text is
nonempty and contains Sign in or Login (with an OCR backend available),
the command list returned by analyze_screen_with_ai contains the fixed
command tapping the screen centre with reason Login screen detected. -/
theorem c8_login_tap_command (flags : LocalServer.LocalFlags)
    (v : LocalServer.LocalVision) (image : PyImage) (frameNum : Nat)
    (hflag : flags.ocr_available = true ∨ flags.easyocr_available = true)
    (htext : v.ocrText ≠ "")
    (hlogin : substrOf "Sign in" v.ocrText = true ∨ substrOf "Login" v.ocrText = true) :
    LocalServer.LocalCommand.tap ((image.width / 2 : ℕ) : ℚ) ((image.height / 2 : ℕ) : ℚ)
        "Login screen detected" ∈
      LocalServer.analyze_screen_with_ai flags v image frameNum := by
  simp only [LocalServer.analyze_screen_with_ai, List.mem_append]
  left; left; left; left
  simp only [LocalServer.ocrCommands]
  have hf : (flags.ocr_available || flags.easyocr_available) = true := by
    rcases hflag with h | h <;> simp [h]
  have hl : (substrOf "Sign in" v.ocrText || substrOf "Login" v.ocrText) = true := by
    rcases hlogin with h | h <;> simp [h]
  rw [if_pos hf, if_pos htext, if_pos hl]
  simp

/-- A concrete OCR result containing the Sign in keyword. -/
def loginVision : LocalServer.LocalVision := { ocrText := "Please Sign in to continue" }

def allFlags : LocalServer.LocalFlags :=
  { ocr_available := true, easyocr_available := true
    transformers_available := true, cv2_available := true }

/-- Witness for C8 at a concrete frame. -/
theorem c8_witness :
    loginVision.ocrText ≠ "" ∧
    substrOf "Sign in" loginVision.ocrText = true ∧
    LocalServer.LocalCommand.tap ((390 / 2 : ℕ) : ℚ) ((844 / 2 : ℕ) : ℚ)
        "Login screen detected" ∈
      LocalServer.analyze_screen_with_ai allFlags loginVision ⟨390, 844, 3, 0⟩ 3 :=
  ⟨by decide, by decide,
    c8_login_tap_command allFlags loginVision ⟨390, 844, 3, 0⟩ 3 (Or.inl rfl)
      (by decide) (Or.inl (by decide))⟩
